import Mathlib

/-!
Shallow embedding of `src/crawler.py` (shibing624/url_crawler): the request
validation (`FetchRequest.__post_init__`), the content extractors
(`extract_readable_text`, `parse_html_to_markdown`), the per-URL fetch unit
(`fetch_single`) and the batch orchestrator (`fetch_urls`).

External collaborators (HTTP transport `httpx`, the DOM parser
`BeautifulSoup`, the Markdown renderer `markdownify`, text decoding) are
modelled as oracles: the DOM is an explicit tree type, the renderer and the
decoder are function parameters, and the network outcome of one GET is an
explicit `HttpOutcome` value.  Configuration constants use the literal
defaults from `crawler.py` (environment overrides are resolved before the
core runs and are out of scope).
-/

namespace Crawler

/-- Process-wide default concurrency (`DEFAULT_CONCURRENCY`, default 10). -/
def DEFAULT_CONCURRENCY : Nat := 10

/-- Process-wide concurrency ceiling (`MAX_CONCURRENCY`, default `max(DEFAULT_CONCURRENCY, 64) = 64`). -/
def MAX_CONCURRENCY : Nat := 64

/-- Maximum URLs per batch (`MAX_URLS`, default 64). -/
def MAX_URLS : Nat := 64

/-- Maximum body bytes kept before decoding (`MAX_BODY_BYTES`, default 5 MiB). -/
def MAX_BODY_BYTES : Nat := 5 * 1024 * 1024

/-- Result of `urllib.parse.urlparse` restricted to the two components the
validator inspects (`parsed.scheme`, `parsed.netloc`).  The URL grammar
itself is the standard library's, treated as an oracle. -/
structure UrlParts where
  scheme : String
  netloc : String
deriving Repr, DecidableEq

/-- Raw request body as handed to `FetchRequest(**payload)`: the field values
before `__post_init__` validation runs.  `timeout` is modelled as a rational
(exact arithmetic for the float comparisons the validator performs);
`concurrency` is the optional integer from the payload. -/
structure RawRequest where
  urls : List String
  timeout : Rat := 15
  concurrency : Option Int := none
  to_markdown : Bool := false
deriving Repr, DecidableEq

/-- Validated request, the state of a `FetchRequest` after `__post_init__`
returns: `concurrency` has been replaced by the effective value
`min(requested, len(urls), MAX_CONCURRENCY)`. -/
structure FetchRequest where
  urls : List String
  timeout : Rat
  concurrency : Nat
  to_markdown : Bool
deriving Repr, DecidableEq

/-- Requested concurrency before clamping: the payload value if present,
otherwise the process default (`crawler.py` lines 102-108). -/
def requestedConcurrency (raw : RawRequest) : Int :=
  match raw.concurrency with
  | none => (DEFAULT_CONCURRENCY : Int)
  | some c => c

/-- Validation of `FetchRequest.__post_init__` (crawler.py lines 78-115):
checks run in source order and the first violated constraint raises
`ValueError` with the message shown; on success the effective concurrency
is stored.  `parse` is the `urlparse` oracle. -/
def validate (parse : String → UrlParts) (raw : RawRequest) : Except String FetchRequest :=
  if raw.urls = [] then
    .error "urls must contain at least one URL"
  else if raw.urls.length > MAX_URLS then
    .error ("urls cannot contain more than " ++ toString MAX_URLS ++ " items")
  else
    match raw.urls.find? (fun u => (parse u).scheme = "" || (parse u).netloc = "") with
    | some u => .error ("Invalid URL provided: " ++ u)
    | none =>
      if ¬ (1 ≤ raw.timeout ∧ raw.timeout ≤ 60) then
        .error "timeout must be between 1 and 60 seconds"
      else if ¬ (1 ≤ requestedConcurrency raw ∧ requestedConcurrency raw ≤ (MAX_CONCURRENCY : Int)) then
        .error ("concurrency must be between 1 and " ++ toString MAX_CONCURRENCY)
      else
        .ok { urls := raw.urls
              timeout := raw.timeout
              concurrency := min (requestedConcurrency raw).toNat (min raw.urls.length MAX_CONCURRENCY)
              to_markdown := raw.to_markdown }

/-- Per-URL result record (`FetchResult` dataclass, crawler.py lines 118-128). -/
structure FetchResult where
  url : String
  ok : Bool
  status_code : Option Nat := none
  charset : Option String := none
  text : Option String := none
  markdown : Option String := none
  error : Option String := none
  bytes_downloaded : Option Nat := none
  elapsed_ms : Option Nat := none
deriving Repr, DecidableEq

/-- Batch result record (`FetchResponse` dataclass, crawler.py lines 131-136). -/
structure FetchResponse where
  total : Nat
  concurrency : Nat
  elapsed_ms : Nat
  results : List FetchResult
deriving Repr, DecidableEq

/-- Parsed HTML node, the tree BeautifulSoup produces: either a text node
(`NavigableString`) or an element with a tag name, attributes and children.
The root of a parsed document is an element whose tag is the synthetic
document name. -/
inductive Node where
  | text : String → Node
  | elem : String → List (String × String) → List Node → Node

mutual

/-- Removal of every element whose tag is in `tags`, with its whole subtree:
one node maps to itself (with cleaned children) or, when its tag is listed,
to nothing. -/
def removeTagsNode (tags : List String) : Node → List Node
  | .text s => [.text s]
  | .elem t a cs =>
      if t ∈ tags then [] else [.elem t a (removeTagsList tags cs)]

/-- Removal over a child list (see `removeTagsNode`). -/
def removeTagsList (tags : List String) : List Node → List Node
  | [] => []
  | n :: ns => removeTagsNode tags n ++ removeTagsList tags ns

end

/-- Removal of every listed element below the document root: the effect of
`for element in soup([...]): element.decompose()` (the root itself is the
synthetic document node, never removed). -/
def removeTags (tags : List String) : Node → Node
  | .text s => .text s
  | .elem t a cs => .elem t a (removeTagsList tags cs)

mutual

/-- All text-node strings of a tree in document order: the strings that
`soup.get_text(separator=...)` joins. -/
def textParts : Node → List String
  | .text s => [s]
  | .elem _ _ cs => textPartsList cs

/-- Text-node strings of a child list (see `textParts`). -/
def textPartsList : List Node → List String
  | [] => []
  | n :: ns => textParts n ++ textPartsList ns

end

/-- Python whitespace characters for `str.strip()` on ASCII text. -/
def pyIsSpace (c : Char) : Bool :=
  c = ' ' || c = '\t' || c = '\n' || c = '\r' || c = '\x0b' || c = '\x0c'

/-- Python `str.strip()` on a character list. -/
def pyStripChars (l : List Char) : List Char :=
  ((l.dropWhile pyIsSpace).reverse.dropWhile pyIsSpace).reverse

/-- Python `str.strip()`. -/
def pyStrip (s : String) : String :=
  ⟨pyStripChars s.data⟩

/-- Python `str.splitlines()` on a character list: splits on `\n`, `\r\n`
and `\r`, with no trailing empty line. -/
def pySplitlinesAux : List Char → List Char → List (List Char)
  | [], acc => if acc = [] then [] else [acc.reverse]
  | '\n' :: rest, acc => acc.reverse :: pySplitlinesAux rest []
  | '\r' :: '\n' :: rest, acc => acc.reverse :: pySplitlinesAux rest []
  | '\r' :: rest, acc => acc.reverse :: pySplitlinesAux rest []
  | c :: rest, acc => pySplitlinesAux rest (c :: acc)

/-- Python `str.splitlines()`. -/
def pySplitlines (s : String) : List String :=
  (pySplitlinesAux s.data []).map (fun l => ⟨l⟩)

/-- Tags removed by both extractors before any text is read
(crawler.py lines 143 and 165). -/
def scriptTags : List String := ["script", "style", "noscript"]

/-- Raw text of a document the way `extract_readable_text` obtains it:
script/style/noscript subtrees removed, remaining text nodes joined with
newlines (`soup.get_text(separator="\n")`). -/
def rawReadableText (root : Node) : String :=
  String.intercalate "\n" (textParts (removeTags scriptTags root))

/-- Line list of `extract_readable_text` (crawler.py line 147):
`[line.strip() for line in text.splitlines() if line.strip()]`. -/
def readableLines (root : Node) : List String :=
  ((pySplitlines (rawReadableText root)).map pyStrip).filter (fun l => l ≠ "")

/-- Plain-text extraction, `extract_readable_text` (crawler.py lines 139-148),
over the parsed document. -/
def extract_readable_text (root : Node) : String :=
  String.intercalate "\n" (readableLines root)

/-- Python string interpolation of an optional string: `f"{x}"` renders the
`None` object as the literal text `None`. -/
def pyStr : Option String → String
  | none => "None"
  | some s => s

/-- Contiguous-substring test on character lists (Python `needle in hay`). -/
def charsContain (needle : List Char) : List Char → Bool
  | [] => needle = []
  | c :: rest => needle.isPrefixOf (c :: rest) || charsContain needle rest

/-- Python `needle in hay` on strings. -/
def strContains (hay needle : String) : Bool :=
  charsContain needle.data hay.data

mutual

/-- First element (document order, depth first) with the given tag carrying
the attribute pair, the way `soup.find(tag, {key: value})` locates it. -/
def findElem (tag key val : String) : Node → Option Node
  | .text _ => none
  | .elem t a cs =>
      if t = tag ∧ (key, val) ∈ a then some (.elem t a cs)
      else findElemList tag key val cs

/-- Search over a child list (see `findElem`). -/
def findElemList (tag key val : String) : List Node → Option Node
  | [] => none
  | n :: ns =>
      match findElem tag key val n with
      | some r => some r
      | none => findElemList tag key val ns

end

mutual

/-- First element with the given tag, the way `soup.title` finds the first
`<title>` element. -/
def findByTag (tag : String) : Node → Option Node
  | .text _ => none
  | .elem t a cs => if t = tag then some (.elem t a cs) else findByTagList tag cs

/-- Search over a child list (see `findByTag`). -/
def findByTagList (tag : String) : List Node → Option Node
  | [] => none
  | n :: ns =>
      match findByTag tag n with
      | some r => some r
      | none => findByTagList tag ns

end

/-- BeautifulSoup `.string` of an element: its single text child when it has
exactly one child and that child is a text node, `None` otherwise. -/
def nodeString : Node → Option String
  | .elem _ _ [.text s] => some s
  | _ => none

/-- Document title as `parse_html_to_markdown` computes it (crawler.py line
162): `soup.title.string if soup.title else "No Title"`; note that a `<title>`
element without a single string child leaves the Python value `None`. -/
def docTitle (root : Node) : Option String :=
  match findByTag "title" root with
  | none => some "No Title"
  | some e => nodeString e

/-- Chrome tags removed before Markdown conversion (crawler.py line 169). -/
def chromeTags : List String := ["nav", "footer", "aside", "form", "figure", "header"]

/-- Single left-to-right pass of `re.sub(r"\r\n", "\n", _)`: each
non-overlapping `\r\n` occurrence becomes `\n`. -/
def subCRLF : List Char → List Char
  | '\r' :: '\n' :: rest => '\n' :: subCRLF rest
  | c :: rest => c :: subCRLF rest
  | [] => []

/-- Scanner for the blank-line collapse.  When `inRun` is set the scanner is
inside a newline run whose first two newlines are already emitted, and it
swallows further newlines; on a newline outside a run it emits two newlines
when a second one follows (the `\n{2,}` match) and one otherwise. -/
def collapseAux (inRun : Bool) : List Char → List Char
  | [] => []
  | '\n' :: rest =>
      if inRun then collapseAux true rest
      else if rest.head? = some '\n' then '\n' :: '\n' :: collapseAux true rest
      else '\n' :: collapseAux false rest
  | c :: rest => c :: collapseAux false rest

/-- Replacement of every maximal run of 2 or more newlines by exactly two,
the effect of `re.sub(r"\n{2,}", "\n\n", _)`. -/
def collapseNL (l : List Char) : List Char :=
  collapseAux false l

/-- Cleanup applied to the converted Markdown text (crawler.py lines 186-187):
normalize `\r\n`, collapse blank-line runs, then `strip()`. -/
def cleanupMarkdown (s : String) : String :=
  pyStrip ⟨collapseNL (subCRLF s.data)⟩

/-- Python `s.startswith(p)`. -/
def pyStartsWith (s p : String) : Bool :=
  p.data.isPrefixOf s.data

/-- Value of the `webpage_text` variable before cleanup (crawler.py lines
172-183): the Wikipedia special case when the URL contains `wikipedia.org`,
otherwise the whole chrome-stripped document rendered by the external
converter. -/
def convertedBody (convert : Node → String) (root : Node) (url : String) : String :=
  let soup := removeTags chromeTags (removeTags scriptTags root)
  if strContains url "wikipedia.org" then
    match findElem "div" "id" "mw-content-text" soup with
    | some body_elm =>
        let main_title :=
          match findElem "span" "class" "mw-page-title-main" soup with
          | some title_elm => nodeString title_elm
          | none => docTitle root
        "# " ++ pyStr main_title ++ "\n\n" ++ convert body_elm
    | none => convert soup
  else convert soup

/-- HTML-to-Markdown conversion, `parse_html_to_markdown` (crawler.py lines
151-193), over the parsed document.  `convert` is the external
`MarkdownConverter().convert_soup` renderer. -/
def parse_html_to_markdown (convert : Node → String) (root : Node) (url : String) : String :=
  let cleaned := cleanupMarkdown (convertedBody convert root url)
  if pyStartsWith cleaned "# " then cleaned
  else "# " ++ pyStr (docTitle root) ++ "\n\n" ++ cleaned

/-- Existence of three consecutive newline characters (what the blank-line
collapse is meant to rule out). -/
def hasTriple : List Char → Bool
  | [] => false
  | [_] => false
  | [_, _] => false
  | a :: b :: c :: rest =>
      (a = '\n' && b = '\n' && c = '\n') || hasTriple (b :: c :: rest)

/-- Python `s.split(",")` on a character list: `""` splits to `[""]`. -/
def splitComma : List Char → List (List Char)
  | [] => [[]]
  | ',' :: rest => [] :: splitComma rest
  | c :: rest =>
      match splitComma rest with
      | [] => [[c]]
      | g :: gs => (c :: g) :: gs

/-- Python `str.lower()` on ASCII text. -/
def pyLower (s : String) : String :=
  ⟨s.data.map Char.toLower⟩

/-- Parsing of the `URL_CRAWLER_ALLOWED_CONTENT_KEYWORDS` configuration
string (crawler.py lines 61-66): split on commas, drop blank entries, strip
and lower-case the rest. -/
def parseAllowedKeywords (s : String) : List String :=
  (splitComma s.data).filterMap
    (fun k => if pyStripChars k = [] then none else some (pyLower ⟨pyStripChars k⟩))

/-- Default content-type allow-list (`"text,html,xml"`). -/
def defaultAllowedKeywords : List String := parseAllowedKeywords "text,html,xml"

/-- Configuration visible to one fetch: the allow-list and the body cap. -/
structure Config where
  allowed : List String := defaultAllowedKeywords
  maxBodyBytes : Nat := MAX_BODY_BYTES

/-- HTTP response as the transport delivers it to `fetch_single`:
status code, declared encoding, raw `content-type` header, and the body
(bytes modelled as the characters of a string, so `len(response.content)`
is the string length). -/
structure HttpResponse where
  status : Nat
  encoding : Option String
  contentType : Option String
  content : String

/-- Outcome of one `client.get(url)` call: a response, or one of the
exception classes `fetch_single` distinguishes (`httpx.TimeoutException`,
other `httpx.HTTPError`, any other `Exception`), each carrying `str(exc)`. -/
inductive HttpOutcome where
  | response : HttpResponse → HttpOutcome
  | timeoutExc : String → HttpOutcome
  | httpExc : String → HttpOutcome
  | otherExc : String → HttpOutcome

/-- External pure collaborators of the fetch unit: the DOM parser
(BeautifulSoup), the Markdown renderer (markdownify) and byte decoding
(`bytes.decode(encoding, errors="replace")`, which never fails). -/
structure Ext where
  parseHtml : String → Node
  convert : Node → String
  decode : String → String → String

/-- Success test of httpx `raise_for_status`: only 2xx responses pass. -/
def statusSuccess (status : Nat) : Bool :=
  200 ≤ status && status < 300

/-- Message of the `httpx.HTTPStatusError` raised by `raise_for_status`
(modelled after httpx: always a non-empty description naming the status and
the URL). -/
def statusErrorMessage (status : Nat) (url : String) : String :=
  (if status < 500 then "Client error '" else "Server error '")
    ++ toString status ++ "' for url '" ++ url ++ "'"

/-- Content-type string the filter inspects (crawler.py line 223):
`response.headers.get("content-type", "").lower()`. -/
def headerContentType (r : HttpResponse) : String :=
  pyLower (r.contentType.getD "")

/-- Filter condition of crawler.py line 224: the allow-list is non-empty
(Python truthiness of the tuple) and no keyword occurs in the content type. -/
def contentTypeRejected (allowed : List String) (ct : String) : Bool :=
  !allowed.isEmpty && !allowed.any (fun keyword => strContains ct keyword)

/-- Encoding passed to `decode` (crawler.py line 229):
`response.encoding or "utf-8"` (Python `or`: `None` and `""` are falsy). -/
def effectiveEncoding (r : HttpResponse) : String :=
  match r.encoding with
  | none => "utf-8"
  | some e => if e = "" then "utf-8" else e

/-- Per-URL fetch unit, `fetch_single` (crawler.py lines 196-250), over the
outcome of its single GET.  `elapsedMs` is the external clock reading taken
in the `finally` block, recorded on every path. -/
def fetch_single (cfg : Config) (ext : Ext) (to_markdown : Bool) (url : String)
    (out : HttpOutcome) (elapsedMs : Nat) : FetchResult :=
  let base : FetchResult := { url := url, ok := false }
  match out with
  | .timeoutExc msg =>
      { base with error := some ("timeout: " ++ msg), elapsed_ms := some elapsedMs }
  | .httpExc msg =>
      { base with error := some msg, elapsed_ms := some elapsedMs }
  | .otherExc msg =>
      { base with error := some msg, elapsed_ms := some elapsedMs }
  | .response r =>
      let base := { base with status_code := some r.status, charset := r.encoding }
      if ¬ statusSuccess r.status then
        { base with error := some (statusErrorMessage r.status url),
                    elapsed_ms := some elapsedMs }
      else if contentTypeRejected cfg.allowed (headerContentType r) then
        { base with error := some ("Unsupported content type: " ++ headerContentType r),
                    elapsed_ms := some elapsedMs }
      else
        let html := ext.decode (effectiveEncoding r) ⟨r.content.data.take cfg.maxBodyBytes⟩
        { base with
            bytes_downloaded := some r.content.length
            text := some (extract_readable_text (ext.parseHtml html))
            markdown := if to_markdown then some (parse_html_to_markdown ext.convert (ext.parseHtml html) url) else none
            ok := true
            elapsed_ms := some elapsedMs }

/-- Python `or` on the validated concurrency (crawler.py line 269):
`request.concurrency or DEFAULT_CONCURRENCY` (0 is falsy). -/
def concurrencyOrDefault (c : Nat) : Nat :=
  if c ≠ 0 then c else DEFAULT_CONCURRENCY

/-- Result list of the batch: one `fetch_single` per URL in input order,
the order `asyncio.gather` returns the task results in (crawler.py lines
300-304).  Each URL occurrence gets its own outcome and clock reading,
indexed by position, so duplicates are independent. -/
def fetchAll (cfg : Config) (ext : Ext) (to_markdown : Bool)
    (out : Nat → HttpOutcome) (clock : Nat → Nat) : Nat → List String → List FetchResult
  | _, [] => []
  | i, url :: rest =>
      fetch_single cfg ext to_markdown url (out i) (clock i)
        :: fetchAll cfg ext to_markdown out clock (i + 1) rest

/-- Batch orchestrator, `fetch_urls` (crawler.py lines 261-313), after
validation succeeded: fans out one fetch unit per URL and assembles the
response in input order.  `batchElapsedMs` is the external wall clock for
the whole batch; the transport client configuration (connection limits,
per-phase timeouts) only parameterizes the external transport and does not
appear in the returned data. -/
def fetch_urls (cfg : Config) (ext : Ext) (req : FetchRequest)
    (out : Nat → HttpOutcome) (clock : Nat → Nat) (batchElapsedMs : Nat) : FetchResponse :=
  let concurrency := concurrencyOrDefault req.concurrency
  let results := fetchAll cfg ext req.to_markdown out clock 0 req.urls
  { total := results.length
    concurrency := concurrency
    elapsed_ms := batchElapsedMs
    results := results }

/-- Operations of one fetch unit whose relative order the spec constrains. -/
inductive FetchEvent where
  | startTimer
  | acquireGate
  | issueGet
  | recordElapsed
  | releaseGate
deriving Repr, DecidableEq, BEq

/-- Order of operations in the body of `fetch_single` as written
(crawler.py lines 214-250): `started = perf_counter()` on line 215, then
`async with semaphore:` (acquire) on line 216, the GET on line 218, the
`finally` recording `elapsed_ms` on line 249 inside the semaphore block,
and the semaphore release when the block exits. -/
def fetchEventTrace : List FetchEvent :=
  [.startTimer, .acquireGate, .issueGet, .recordElapsed, .releaseGate]

/-- Position of an operation in the fetch unit's trace. -/
def eventIdx (e : FetchEvent) : Nat :=
  fetchEventTrace.findIdx (fun x => x == e)

/-- Trivial instantiation of the external collaborators, for concrete runs:
an empty parsed document, an empty rendering, identity decoding. -/
def trivialExt : Ext :=
  { parseHtml := fun _ => .elem "[document]" [] []
    convert := fun _ => ""
    decode := fun _ s => s }

/-- DOM produced by the external parser for
`<html><script>x</script><body>  Hello  <br/>World </body></html>`
(html.parser: a document node over the `html` element, whose `script` child
holds the text `x` and whose `body` child holds two text nodes around a
`br` element). -/
def exampleDom : Node :=
  .elem "[document]" []
    [.elem "html" []
      [.elem "script" [] [.text "x"],
       .elem "body" [] [.text "  Hello  ", .elem "br" [] [], .text "World "]]]

/-- Concrete `urlparse` oracle for witnesses: every string parses with a
scheme and an authority. -/
def parseAnyUrl : String → UrlParts := fun _ => { scheme := "http", netloc := "h" }

/-- Concrete raw request for witnesses. -/
def rawRequestOne : RawRequest := { urls := ["http://a"] }

/-- Validated form of `rawRequestOne`. -/
def fetchRequestOne : FetchRequest :=
  { urls := ["http://a"], timeout := 15, concurrency := 1, to_markdown := false }

/-- Concrete `urlparse` oracle that never finds a scheme or an authority. -/
def parseNoScheme : String → UrlParts := fun _ => { scheme := "", netloc := "" }

/-!  Shared lemmas about the fetch unit and the orchestrator. -/

/-- Reduction of `fetch_single` on a non-2xx response: `raise_for_status`
throws, the handler stores its message, and only status and charset are
kept. -/
theorem fetch_single_status_error (cfg : Config) (ext : Ext) (md : Bool) (url : String)
    (e : Nat) (r : HttpResponse) (h : statusSuccess r.status = false) :
    fetch_single cfg ext md url (.response r) e
      = { url := url, ok := false, status_code := some r.status, charset := r.encoding,
          error := some (statusErrorMessage r.status url), elapsed_ms := some e } := by
  simp [fetch_single, h]

/-- Reduction of `fetch_single` on a 2xx response whose content type fails
the allow-list. -/
theorem fetch_single_unsupported (cfg : Config) (ext : Ext) (md : Bool) (url : String)
    (e : Nat) (r : HttpResponse) (h1 : statusSuccess r.status = true)
    (h2 : contentTypeRejected cfg.allowed (headerContentType r) = true) :
    fetch_single cfg ext md url (.response r) e
      = { url := url, ok := false, status_code := some r.status, charset := r.encoding,
          error := some ("Unsupported content type: " ++ headerContentType r),
          elapsed_ms := some e } := by
  simp [fetch_single, h1, h2]

/-- Reduction of `fetch_single` on a 2xx response with an allowed content
type: the body is truncated, decoded and extracted. -/
theorem fetch_single_success (cfg : Config) (ext : Ext) (md : Bool) (url : String)
    (e : Nat) (r : HttpResponse) (h1 : statusSuccess r.status = true)
    (h2 : contentTypeRejected cfg.allowed (headerContentType r) = false) :
    fetch_single cfg ext md url (.response r) e
      = { url := url, ok := true, status_code := some r.status, charset := r.encoding,
          bytes_downloaded := some r.content.length,
          text := some (extract_readable_text
            (ext.parseHtml (ext.decode (effectiveEncoding r) ⟨r.content.data.take cfg.maxBodyBytes⟩))),
          markdown := if md then some (parse_html_to_markdown ext.convert
            (ext.parseHtml (ext.decode (effectiveEncoding r) ⟨r.content.data.take cfg.maxBodyBytes⟩)) url) else none,
          elapsed_ms := some e } := by
  simp [fetch_single, h1, h2]

/-- The modelled `HTTPStatusError` message is never the empty string. -/
theorem statusErrorMessage_ne_empty (status : Nat) (url : String) :
    statusErrorMessage status url ≠ "" := by
  intro h
  have hl : (statusErrorMessage status url).length = 0 := by rw [h]; rfl
  unfold statusErrorMessage at hl
  rw [String.length_append, String.length_append, String.length_append,
    String.length_append, show ("'" : String).length = 1 from rfl] at hl
  omega

/-- The `url` field of a fetch result always echoes the input URL. -/
theorem fetch_single_url (cfg : Config) (ext : Ext) (md : Bool) (url : String)
    (out : HttpOutcome) (e : Nat) :
    (fetch_single cfg ext md url out e).url = url := by
  cases out with
  | response r =>
    simp only [fetch_single]
    split_ifs <;> rfl
  | timeoutExc m => rfl
  | httpExc m => rfl
  | otherExc m => rfl

/-- One result per URL. -/
theorem fetchAll_length (cfg : Config) (ext : Ext) (md : Bool)
    (out : Nat → HttpOutcome) (clock : Nat → Nat) :
    ∀ (urls : List String) (i : Nat),
      (fetchAll cfg ext md out clock i urls).length = urls.length := by
  intro urls
  induction urls with
  | nil => intro i; rfl
  | cons u rest ih => intro i; simp [fetchAll, ih]

/-- The k-th result echoes the k-th URL. -/
theorem fetchAll_get_url (cfg : Config) (ext : Ext) (md : Bool)
    (out : Nat → HttpOutcome) (clock : Nat → Nat) :
    ∀ (urls : List String) (i k : Nat) (hk : k < urls.length)
      (hk' : k < (fetchAll cfg ext md out clock i urls).length),
      ((fetchAll cfg ext md out clock i urls).get ⟨k, hk'⟩).url = urls.get ⟨k, hk⟩ := by
  intro urls
  induction urls with
  | nil => intro i k hk hk'; exact absurd hk (by simp)
  | cons u rest ih =>
    intro i k hk hk'
    cases k with
    | zero => exact fetch_single_url cfg ext md u (out i) (clock i)
    | succ k => exact ih (i + 1) k (by simpa using hk) (by simpa [fetchAll] using hk')

/-!  Shared lemmas about the blank-line collapse. -/

/-- Output of the in-run scanner never starts with a newline. -/
theorem head_collapseAux_true : ∀ l : List Char, (collapseAux true l).head? ≠ some '\n' := by
  intro l
  induction l with
  | nil => simp [collapseAux]
  | cons c rest ih =>
    by_cases hc : c = '\n'
    · subst hc; simpa [collapseAux] using ih
    · simp [collapseAux, hc]

/-- Outside a run, the scanner preserves a non-newline head. -/
theorem head_collapseAux_false (l : List Char) (h : l.head? ≠ some '\n') :
    (collapseAux false l).head? = l.head? := by
  cases l with
  | nil => rfl
  | cons c rest =>
    have hc : c ≠ '\n' := by
      intro e; exact h (by rw [e]; rfl)
    simp [collapseAux, hc]

/-- A single newline before a triple-free list with a non-newline head
creates no newline triple. -/
theorem hasTriple_nl1 (Y : List Char) (h : Y.head? ≠ some '\n')
    (hY : hasTriple Y = false) : hasTriple ('\n' :: Y) = false := by
  match Y with
  | [] => rfl
  | [y] => rfl
  | y :: z :: zs =>
    have hy : y ≠ '\n' := by intro e; exact h (by rw [e]; rfl)
    simp [hasTriple, hy] at hY ⊢
    exact hY

/-- Two newlines before a triple-free list with a non-newline head create
no newline triple. -/
theorem hasTriple_nl2 (Y : List Char) (h : Y.head? ≠ some '\n')
    (hY : hasTriple Y = false) : hasTriple ('\n' :: '\n' :: Y) = false := by
  match Y with
  | [] => rfl
  | y :: ys =>
    have hy : y ≠ '\n' := by intro e; exact h (by rw [e]; rfl)
    have h1 : hasTriple ('\n' :: y :: ys) = false := hasTriple_nl1 _ h hY
    simp [hasTriple, hy] at h1 ⊢
    exact h1

/-- A non-newline character in front of a triple-free list creates no
newline triple. -/
theorem hasTriple_cons (c : Char) (X : List Char) (hc : c ≠ '\n')
    (hX : hasTriple X = false) : hasTriple (c :: X) = false := by
  match X with
  | [] => rfl
  | [y] => rfl
  | y :: z :: zs =>
    simp [hasTriple, hc] at hX ⊢
    exact hX

/-- The scanner never emits three consecutive newlines. -/
theorem hasTriple_collapseAux :
    ∀ (l : List Char) (b : Bool), hasTriple (collapseAux b l) = false := by
  intro l
  induction l with
  | nil => intro b; rfl
  | cons c rest ih =>
    intro b
    by_cases hc : c = '\n'
    · subst hc
      cases b with
      | true => simpa [collapseAux] using ih true
      | false =>
        have hstep : collapseAux false ('\n' :: rest)
            = if rest.head? = some '\n' then '\n' :: '\n' :: collapseAux true rest
              else '\n' :: collapseAux false rest := rfl
        by_cases hh : rest.head? = some '\n'
        · rw [hstep, if_pos hh]
          exact hasTriple_nl2 _ (head_collapseAux_true _) (ih true)
        · rw [hstep, if_neg hh]
          apply hasTriple_nl1
          · rw [head_collapseAux_false _ hh]
            exact hh
          · exact ih false
    · simp only [collapseAux, hc]
      exact hasTriple_cons c _ hc (ih false)

/-- The blank-line collapse leaves no three consecutive newlines. -/
theorem hasTriple_collapseNL (l : List Char) : hasTriple (collapseNL l) = false :=
  hasTriple_collapseAux l false

/-!  Shared inversion of a successful validation. -/

/-- What a successful `__post_init__` run implies: the constructed request
and every constraint it checked. -/
theorem validate_ok_inv (parse : String → UrlParts) (raw : RawRequest) (req : FetchRequest)
    (h : validate parse raw = .ok req) :
    req = { urls := raw.urls, timeout := raw.timeout,
            concurrency := min (requestedConcurrency raw).toNat (min raw.urls.length MAX_CONCURRENCY),
            to_markdown := raw.to_markdown } ∧
    raw.urls ≠ [] ∧ raw.urls.length ≤ MAX_URLS ∧
    (∀ u ∈ raw.urls, (parse u).scheme ≠ "" ∧ (parse u).netloc ≠ "") ∧
    1 ≤ raw.timeout ∧ raw.timeout ≤ 60 ∧
    1 ≤ requestedConcurrency raw ∧ requestedConcurrency raw ≤ (MAX_CONCURRENCY : Int) := by
  unfold validate at h
  split at h
  · exact absurd h (by simp)
  · split at h
    · exact absurd h (by simp)
    · split at h
      · exact absurd h (by simp)
      · next hfind =>
        split at h
        · exact absurd h (by simp)
        · split at h
          · exact absurd h (by simp)
          · next h1 h2 h3 h4 h5 =>
            injection h with h
            subst h
            refine ⟨rfl, h1, by omega, ?_, ?_, ?_, ?_, ?_⟩
            · intro u hu
              have := List.find?_eq_none.mp hfind u hu
              simp at this
              exact this
            · rcases not_not.mp (by simpa using h4) with ⟨ht, _⟩
              exact ht
            · rcases not_not.mp (by simpa using h4) with ⟨_, ht⟩
              exact ht
            · rcases not_not.mp (by simpa using h5) with ⟨hc, _⟩
              exact hc
            · rcases not_not.mp (by simpa using h5) with ⟨_, hc⟩
              exact hc

/-!  Claim theorems. -/

/-- C1: for every valid FetchRequest, the FetchResponse satisfies
`total == len(request.urls)`, `len(results) == total == len(request.urls)`,
and `results[k].url == request.urls[k]` for every index `k` — results appear
in exactly the input URL order (the order `asyncio.gather` preserves,
whatever the completion order), and each position gets its own result, so
duplicate input URLs are independent entries. -/
theorem fetch_urls_order (parse : String → UrlParts) (raw : RawRequest) (req : FetchRequest)
    (_h : validate parse raw = .ok req) (cfg : Config) (ext : Ext)
    (out : Nat → HttpOutcome) (clock : Nat → Nat) (batch : Nat) :
    (fetch_urls cfg ext req out clock batch).total = req.urls.length ∧
    (fetch_urls cfg ext req out clock batch).results.length = req.urls.length ∧
    ∀ (k : Nat) (hk : k < req.urls.length)
      (hk' : k < (fetch_urls cfg ext req out clock batch).results.length),
      ((fetch_urls cfg ext req out clock batch).results.get ⟨k, hk'⟩).url
        = req.urls.get ⟨k, hk⟩ := by
  refine ⟨?_, ?_, ?_⟩
  · exact fetchAll_length cfg ext req.to_markdown out clock req.urls 0
  · exact fetchAll_length cfg ext req.to_markdown out clock req.urls 0
  · intro k hk hk'
    exact fetchAll_get_url cfg ext req.to_markdown out clock req.urls 0 k hk hk'

/-- C1 witness: the order theorem applied to the concrete validated
one-URL request. -/
theorem fetch_urls_order_witness :
    (fetch_urls {} trivialExt fetchRequestOne (fun _ => .timeoutExc "t") (fun _ => 0) 7).total
        = fetchRequestOne.urls.length ∧
    ((fetch_urls {} trivialExt fetchRequestOne (fun _ => .timeoutExc "t") (fun _ => 0) 7).results.get
        ⟨0, by decide⟩).url = "http://a" :=
  ⟨(fetch_urls_order parseAnyUrl rawRequestOne fetchRequestOne (by rfl) {} trivialExt
      (fun _ => .timeoutExc "t") (fun _ => 0) 7).1,
   (fetch_urls_order parseAnyUrl rawRequestOne fetchRequestOne (by rfl) {} trivialExt
      (fun _ => .timeoutExc "t") (fun _ => 0) 7).2.2 0 (by decide) (by decide)⟩

/-- C2: for every validated FetchRequest, the effective concurrency equals
`min(requested-or-default, len(urls), MAX_CONCURRENCY)`, it satisfies
`1 <= c <= min(len(urls), MAX_CONCURRENCY)`, and the FetchResponse reports
exactly this effective value. -/
theorem effective_concurrency (parse : String → UrlParts) (raw : RawRequest) (req : FetchRequest)
    (h : validate parse raw = .ok req) (cfg : Config) (ext : Ext)
    (out : Nat → HttpOutcome) (clock : Nat → Nat) (batch : Nat) :
    req.urls = raw.urls ∧
    req.concurrency
      = min (requestedConcurrency raw).toNat (min raw.urls.length MAX_CONCURRENCY) ∧
    1 ≤ req.concurrency ∧ req.concurrency ≤ min req.urls.length MAX_CONCURRENCY ∧
    (fetch_urls cfg ext req out clock batch).concurrency = req.concurrency := by
  obtain ⟨hreq, hne, -, -, -, -, hc1, -⟩ := validate_ok_inv parse raw req h
  subst hreq
  have hlen : 1 ≤ raw.urls.length := List.length_pos.mpr hne
  have hMax : 1 ≤ MAX_CONCURRENCY := by decide
  have hreq1 : 1 ≤ (requestedConcurrency raw).toNat := by omega
  refine ⟨rfl, rfl, by simp only []; omega, by simp only []; omega, ?_⟩
  have hpos : min (requestedConcurrency raw).toNat (min raw.urls.length MAX_CONCURRENCY) ≠ 0 := by
    omega
  simp [fetch_urls, concurrencyOrDefault, hpos]

/-- C2 witness: the concurrency theorem applied to the concrete validated
one-URL request. -/
theorem effective_concurrency_witness :
    1 ≤ fetchRequestOne.concurrency ∧
    fetchRequestOne.concurrency ≤ min fetchRequestOne.urls.length MAX_CONCURRENCY :=
  ⟨(effective_concurrency parseAnyUrl rawRequestOne fetchRequestOne (by rfl) {} trivialExt
      (fun _ => .timeoutExc "t") (fun _ => 0) 7).2.2.1,
   (effective_concurrency parseAnyUrl rawRequestOne fetchRequestOne (by rfl) {} trivialExt
      (fun _ => .timeoutExc "t") (fun _ => 0) 7).2.2.2.1⟩

/-- C3: validation constructs a FetchRequest exactly when every constraint
holds (non-empty URL list of at most MAX_URLS entries, every URL parsing
with scheme and authority, timeout in the inclusive range [1, 60], and
requested concurrency — the default when absent — in [1, MAX_CONCURRENCY]),
and otherwise fails with the error of the first violated constraint, in
source order; the timeout boundaries 1 and 60 are accepted while 1/2 and 61
are rejected, and the concurrency boundaries 1 and 64 are accepted while 0
and 65 are rejected. -/
theorem validate_spec (parse : String → UrlParts) (raw : RawRequest) :
    ((validate parse raw).isOk = true ↔
      (raw.urls ≠ [] ∧ raw.urls.length ≤ MAX_URLS ∧
       (∀ u ∈ raw.urls, (parse u).scheme ≠ "" ∧ (parse u).netloc ≠ "") ∧
       1 ≤ raw.timeout ∧ raw.timeout ≤ 60 ∧
       1 ≤ requestedConcurrency raw ∧ requestedConcurrency raw ≤ (MAX_CONCURRENCY : Int))) ∧
    (raw.urls = [] → validate parse raw = .error "urls must contain at least one URL") ∧
    (raw.urls.length > MAX_URLS → raw.urls ≠ [] →
      validate parse raw
        = .error ("urls cannot contain more than " ++ toString MAX_URLS ++ " items")) ∧
    (∀ u, raw.urls ≠ [] → raw.urls.length ≤ MAX_URLS →
      raw.urls.find? (fun v => (parse v).scheme = "" || (parse v).netloc = "") = some u →
      validate parse raw = .error ("Invalid URL provided: " ++ u)) ∧
    (validate parseAnyUrl { urls := ["http://a"], timeout := 1 }).isOk = true ∧
    (validate parseAnyUrl { urls := ["http://a"], timeout := 60 }).isOk = true ∧
    validate parseAnyUrl { urls := ["http://a"], timeout := mkRat 1 2 }
      = .error "timeout must be between 1 and 60 seconds" ∧
    validate parseAnyUrl { urls := ["http://a"], timeout := 61 }
      = .error "timeout must be between 1 and 60 seconds" ∧
    validate parseAnyUrl { urls := List.replicate (MAX_URLS + 1) "http://a" }
      = .error ("urls cannot contain more than " ++ toString MAX_URLS ++ " items") ∧
    validate parseNoScheme { urls := ["notaurl"] }
      = .error "Invalid URL provided: notaurl" ∧
    (validate parseAnyUrl { urls := ["http://a"], concurrency := some 1 }).isOk = true ∧
    (validate parseAnyUrl { urls := ["http://a"], concurrency := some 64 }).isOk = true ∧
    validate parseAnyUrl { urls := ["http://a"], concurrency := some 0 }
      = .error ("concurrency must be between 1 and " ++ toString MAX_CONCURRENCY) ∧
    validate parseAnyUrl { urls := ["http://a"], concurrency := some 65 }
      = .error ("concurrency must be between 1 and " ++ toString MAX_CONCURRENCY) := by
  refine ⟨⟨?_, ?_⟩, ?_, ?_, ?_, by rfl, by rfl, by rfl, by rfl, by rfl,
    by rfl, by rfl, by rfl, by rfl, by rfl⟩
  · intro hok
    cases heq : validate parse raw with
    | error e => rw [heq] at hok; simp [Except.isOk, Except.toBool] at hok
    | ok req =>
      obtain ⟨-, h1, h2, h3, h4, h5, h6, h7⟩ := validate_ok_inv parse raw req heq
      exact ⟨h1, h2, h3, h4, h5, h6, h7⟩
  · rintro ⟨h1, h2, h3, h4, h5, h6, h7⟩
    have hfind : raw.urls.find? (fun v => (parse v).scheme = "" || (parse v).netloc = "") = none := by
      rw [List.find?_eq_none]
      intro u hu
      simp [h3 u hu]
    unfold validate
    rw [if_neg h1, if_neg (by omega), hfind, if_neg (not_not.mpr ⟨h4, h5⟩),
      if_neg (not_not.mpr ⟨h6, h7⟩)]
    rfl
  · intro h1
    unfold validate
    rw [if_pos h1]
  · intro hlen hne
    unfold validate
    rw [if_neg hne, if_pos hlen]
  · intro u hne hlen hfind
    unfold validate
    rw [if_neg hne, if_neg (by omega), hfind]

/-- C3 witness: the validation theorem applied to the empty URL list. -/
theorem validate_spec_witness :
    validate parseAnyUrl { urls := ([] : List String) }
      = .error "urls must contain at least one URL" :=
  (validate_spec parseAnyUrl { urls := ([] : List String) }).2.1 rfl

/-- C4: the fetch unit is a total function into FetchResult (it never
raises), and in every outcome `error` is present iff `ok` is false, `text`
is present only if `ok`, `markdown` is present only if `ok` and
`to_markdown` was requested, and a successful fetch with
`to_markdown=false` has no markdown. -/
theorem fetch_single_field_contract (cfg : Config) (ext : Ext) (to_markdown : Bool)
    (url : String) (out : HttpOutcome) (e : Nat) :
    let r := fetch_single cfg ext to_markdown url out e
    (r.error.isSome ↔ r.ok = false) ∧
    (r.text.isSome → r.ok = true) ∧
    (r.markdown.isSome → r.ok = true ∧ to_markdown = true) ∧
    (r.ok = true → to_markdown = false → r.markdown = none) := by
  intro r
  cases out with
  | timeoutExc m => simp [r, fetch_single]
  | httpExc m => simp [r, fetch_single]
  | otherExc m => simp [r, fetch_single]
  | response resp =>
    simp only [r, fetch_single]
    by_cases h1 : statusSuccess resp.status
    · by_cases h2 : contentTypeRejected cfg.allowed (headerContentType resp) = true
      · simp [h1, h2]
      · simp [h1, h2]
    · simp [h1]

/-- C4 witness: the field contract at a concrete timed-out fetch. -/
theorem fetch_single_field_contract_witness :
    let r := fetch_single {} trivialExt false "http://a" (.timeoutExc "boom") 3
    (r.error.isSome ↔ r.ok = false) ∧
    (r.text.isSome → r.ok = true) ∧
    (r.markdown.isSome → r.ok = true ∧ false = true) ∧
    (r.ok = true → false = false → r.markdown = none) :=
  fetch_single_field_contract {} trivialExt false "http://a" (.timeoutExc "boom") 3

/-- C5: the status check precedes the content-type check.  A 404 response —
whatever its content type — yields `ok=false`, `status_code=404`, the
non-empty HTTP-error message, and no text or markdown; a 200 response with
content type `application/pdf` (not in the default allow-list) yields
`ok=false`, `status_code=200`, and the unsupported-content-type error. -/
theorem status_before_content_type (ext : Ext) (to_markdown : Bool) (url : String)
    (e : Nat) (enc : Option String) (ct : Option String) (body : String) :
    ((fetch_single {} ext to_markdown url (.response ⟨404, enc, ct, body⟩) e).ok = false ∧
     (fetch_single {} ext to_markdown url (.response ⟨404, enc, ct, body⟩) e).status_code
        = some 404 ∧
     (fetch_single {} ext to_markdown url (.response ⟨404, enc, ct, body⟩) e).error
        = some (statusErrorMessage 404 url) ∧
     statusErrorMessage 404 url ≠ "" ∧
     (fetch_single {} ext to_markdown url (.response ⟨404, enc, ct, body⟩) e).text = none ∧
     (fetch_single {} ext to_markdown url (.response ⟨404, enc, ct, body⟩) e).markdown
        = none) ∧
    ((fetch_single {} ext to_markdown url
        (.response ⟨200, enc, some "application/pdf", body⟩) e).ok = false ∧
     (fetch_single {} ext to_markdown url
        (.response ⟨200, enc, some "application/pdf", body⟩) e).status_code = some 200 ∧
     (fetch_single {} ext to_markdown url
        (.response ⟨200, enc, some "application/pdf", body⟩) e).error
        = some ("Unsupported content type: application/pdf")) := by
  have h404 := fetch_single_status_error {} ext to_markdown url e ⟨404, enc, ct, body⟩ rfl
  have hpdf := fetch_single_unsupported {} ext to_markdown url e
    ⟨200, enc, some "application/pdf", body⟩ rfl
    (show contentTypeRejected defaultAllowedKeywords (pyLower "application/pdf") = true by decide)
  rw [h404, hpdf]
  exact ⟨⟨rfl, rfl, rfl, statusErrorMessage_ne_empty 404 url, rfl, rfl⟩, rfl, rfl, rfl⟩

/-- C5 witness: the classification at a concrete URL and response. -/
theorem status_before_content_type_witness :
    (fetch_single {} trivialExt false "http://a"
        (.response ⟨404, some "utf-8", some "application/pdf", "bb"⟩) 3).error
      = some (statusErrorMessage 404 "http://a") ∧
    statusErrorMessage 404 "http://a" ≠ "" :=
  ⟨(status_before_content_type trivialExt false "http://a" 3 (some "utf-8")
      (some "application/pdf") "bb").1.2.2.1,
   (status_before_content_type trivialExt false "http://a" 3 (some "utf-8")
      (some "application/pdf") "bb").1.2.2.2.1⟩

/-- C6 counterexample: on a 404 response a response was clearly received
(`status_code` is populated) and the attempt has failed, yet
`bytes_downloaded` is `None` — the code sets it only after the status and
content-type checks pass, so it is not "always populated on any attempt
except fields that require a response". -/
theorem bytes_downloaded_counterexample :
    (fetch_single {} trivialExt false "http://a"
        (.response ⟨404, some "utf-8", some "text/html", "bb"⟩) 5).status_code = some 404 ∧
    (fetch_single {} trivialExt false "http://a"
        (.response ⟨404, some "utf-8", some "text/html", "bb"⟩) 5).bytes_downloaded = none := by
  constructor <;> rfl

/-- C6 amended: `status_code` and `charset` are recorded as soon as a
response is received, even when a later step fails, and `elapsed_ms` is
populated on every attempt; `bytes_downloaded`, however, is populated
exactly when the response passed both the status check and the
content-type check. -/
theorem observability_fields (cfg : Config) (ext : Ext) (to_markdown : Bool)
    (url : String) (e : Nat) :
    (∀ out, (fetch_single cfg ext to_markdown url out e).elapsed_ms = some e) ∧
    (∀ r : HttpResponse,
      (fetch_single cfg ext to_markdown url (.response r) e).status_code = some r.status ∧
      (fetch_single cfg ext to_markdown url (.response r) e).charset = r.encoding ∧
      ((fetch_single cfg ext to_markdown url (.response r) e).bytes_downloaded ≠ none ↔
        statusSuccess r.status = true ∧
          contentTypeRejected cfg.allowed (headerContentType r) = false)) := by
  constructor
  · intro out
    cases out with
    | response r =>
      by_cases h1 : statusSuccess r.status = true
      · by_cases h2 : contentTypeRejected cfg.allowed (headerContentType r) = true
        · rw [fetch_single_unsupported cfg ext to_markdown url e r h1 h2]
        · rw [fetch_single_success cfg ext to_markdown url e r h1 (by simpa using h2)]
      · rw [fetch_single_status_error cfg ext to_markdown url e r (by simpa using h1)]
    | timeoutExc m => rfl
    | httpExc m => rfl
    | otherExc m => rfl
  · intro r
    by_cases h1 : statusSuccess r.status = true
    · by_cases h2 : contentTypeRejected cfg.allowed (headerContentType r) = true
      · rw [fetch_single_unsupported cfg ext to_markdown url e r h1 h2]
        simp [h1, h2]
      · rw [fetch_single_success cfg ext to_markdown url e r h1 (by simpa using h2)]
        simp [h1, h2]
    · rw [fetch_single_status_error cfg ext to_markdown url e r (by simpa using h1)]
      simp
      intro h
      exact absurd h h1

/-- C7 counterexample: in the written order of `fetch_single`
(crawler.py lines 215-216) the gate is NOT acquired before the timer
starts — `started = perf_counter()` runs first, `async with semaphore:`
second. -/
theorem gate_before_timer_counterexample :
    ¬ eventIdx FetchEvent.acquireGate < eventIdx FetchEvent.startTimer := by
  decide

/-- C7 amended: the fetch unit starts its timer before acquiring a gate
slot, and records the elapsed time after the gate was acquired, so the
recorded per-URL `elapsed_ms` includes time spent waiting for gate
admission. -/
theorem timer_before_gate :
    eventIdx FetchEvent.startTimer < eventIdx FetchEvent.acquireGate ∧
    eventIdx FetchEvent.acquireGate < eventIdx FetchEvent.recordElapsed := by
  decide

/-- C8: plain-text extraction of
`<html><script>x</script><body>  Hello  <br/>World </body></html>` yields
exactly the lines `Hello` and `World` (no script content, no markup);
in general every produced line is non-empty and is the trim of a line of
the raw node text, and a script/style/noscript subtree contributes nothing
to the output. -/
theorem extract_readable_text_spec :
    extract_readable_text exampleDom = "Hello\nWorld" ∧
    readableLines exampleDom = ["Hello", "World"] ∧
    (∀ (root : Node) (l : String), l ∈ readableLines root →
      l ≠ "" ∧ ∃ raw ∈ pySplitlines (rawReadableText root), l = pyStrip raw) ∧
    (∀ (tag : String), tag ∈ scriptTags →
      ∀ (a b : List (String × String)) (cs rest : List Node),
        extract_readable_text (.elem "[document]" a (.elem tag b cs :: rest))
          = extract_readable_text (.elem "[document]" a rest)) := by
  refine ⟨rfl, rfl, ?_, ?_⟩
  · intro root l hl
    unfold readableLines at hl
    rw [List.mem_filter] at hl
    obtain ⟨hmap, hne⟩ := hl
    rw [List.mem_map] at hmap
    obtain ⟨raw, hraw, rfl⟩ := hmap
    exact ⟨by simpa using hne, raw, hraw, rfl⟩
  · intro tag htag a b cs rest
    have hrm : removeTags scriptTags (.elem "[document]" a (.elem tag b cs :: rest))
        = removeTags scriptTags (.elem "[document]" a rest) := by
      simp only [removeTags, removeTagsList, removeTagsNode]
      rw [if_pos htag]
      simp
    unfold extract_readable_text readableLines rawReadableText
    rw [hrm]

/-- C8 witness: the extraction theorem applied to the example document, the
line `Hello` of its output, and the `script` tag. -/
theorem extract_readable_text_spec_witness :
    ("Hello" ≠ "" ∧
      ∃ raw ∈ pySplitlines (rawReadableText exampleDom), "Hello" = pyStrip raw) ∧
    extract_readable_text (.elem "[document]" [] [.elem "script" [] [.text "x"]])
      = extract_readable_text (.elem "[document]" [] []) :=
  ⟨extract_readable_text_spec.2.2.1 exampleDom "Hello" (by decide),
   extract_readable_text_spec.2.2.2 "script" (by decide) [] [] [.text "x"] []⟩

/-- C9: the Markdown conversion cleans the converted body by normalizing
`\r\n`, collapsing blank-line runs (never leaving three consecutive
newlines) and stripping, and its result always begins with a level-1
heading line `# ` — the cleaned body itself when it already starts with
one, otherwise the heading built from the document title prepended to it. -/
theorem parse_html_to_markdown_spec (convert : Node → String) (root : Node) (url : String) :
    pyStartsWith (parse_html_to_markdown convert root url) "# " = true ∧
    (parse_html_to_markdown convert root url
        = if pyStartsWith (cleanupMarkdown (convertedBody convert root url)) "# "
          then cleanupMarkdown (convertedBody convert root url)
          else "# " ++ pyStr (docTitle root) ++ "\n\n"
              ++ cleanupMarkdown (convertedBody convert root url)) ∧
    cleanupMarkdown (convertedBody convert root url)
      = pyStrip ⟨collapseNL (subCRLF (convertedBody convert root url).data)⟩ ∧
    (∀ l : List Char, hasTriple (collapseNL l) = false) := by
  refine ⟨?_, rfl, rfl, hasTriple_collapseNL⟩
  unfold parse_html_to_markdown
  by_cases h : pyStartsWith (cleanupMarkdown (convertedBody convert root url)) "# " = true
  · rw [if_pos h]
    exact h
  · rw [if_neg h]
    show ['#', ' '].isPrefixOf ('#' :: ' ' :: _) = true
    simp [List.isPrefixOf]

/-- C9 witness: the Markdown theorem applied to a concrete converter,
document and URL. -/
theorem parse_html_to_markdown_spec_witness :
    pyStartsWith (parse_html_to_markdown (fun _ => "body text") exampleDom "http://x") "# "
      = true ∧
    hasTriple (collapseNL "a\n\n\n\nb".data) = false :=
  ⟨(parse_html_to_markdown_spec (fun _ => "body text") exampleDom "http://x").1,
   (parse_html_to_markdown_spec (fun _ => "body text") exampleDom "http://x").2.2.2
      "a\n\n\n\nb".data⟩

/-- C10: when the configured keyword string parses to an empty allow-list,
content-type filtering is disabled: the fetch result does not depend on the
content-type header at all (present, absent, or arbitrary), and every
response with a success status yields `ok=true` — no unsupported-content-
type failure can occur. -/
theorem empty_allowlist_disables_filter (s : String) (h : parseAllowedKeywords s = [])
    (ext : Ext) (to_markdown : Bool) (url : String) (e : Nat)
    (st : Nat) (enc : Option String) (body : String) (ct1 ct2 : Option String) :
    fetch_single ⟨parseAllowedKeywords s, MAX_BODY_BYTES⟩ ext to_markdown url
        (.response ⟨st, enc, ct1, body⟩) e
      = fetch_single ⟨parseAllowedKeywords s, MAX_BODY_BYTES⟩ ext to_markdown url
        (.response ⟨st, enc, ct2, body⟩) e ∧
    (statusSuccess st = true →
      (fetch_single ⟨parseAllowedKeywords s, MAX_BODY_BYTES⟩ ext to_markdown url
        (.response ⟨st, enc, ct1, body⟩) e).ok = true) := by
  have hrej : ∀ ct, contentTypeRejected (parseAllowedKeywords s) ct = false := by
    intro ct; rw [h]; rfl
  constructor
  · by_cases h1 : statusSuccess st = true
    · rw [fetch_single_success _ ext to_markdown url e _ h1 (hrej _),
        fetch_single_success _ ext to_markdown url e _ h1 (hrej _)]
      rfl
    · rw [fetch_single_status_error _ ext to_markdown url e _ (by simpa using h1)]
      rw [fetch_single_status_error _ ext to_markdown url e _ (by simpa using h1)]
  · intro h1
    rw [fetch_single_success _ ext to_markdown url e _ h1 (hrej _)]

/-- C10 witness: the blank configuration string ` , ` parses to an empty
allow-list and a 200 PDF response succeeds under it. -/
theorem empty_allowlist_disables_filter_witness :
    (fetch_single ⟨parseAllowedKeywords " , ", MAX_BODY_BYTES⟩ trivialExt false "http://a"
        (.response ⟨200, some "utf-8", some "application/pdf", "bb"⟩) 3).ok = true :=
  (empty_allowlist_disables_filter " , " (by decide) trivialExt false "http://a" 3
      200 (some "utf-8") "bb" (some "application/pdf") none).2 (by decide)

end Crawler
